import Mathlib

/-!
Shallow embedding of `src/debug_gifts.py` (repository OmarElsiry/nova-back).

The script is (after its two module imports, `requests` and `json`):

  url = "https://channelsseller.site/api/user/udbcwicnovewwobvo/nfts"
  headers = \x7b"X-Admin-Password": "nova_admin_2024"\x7d

  try:
      response = requests.get(url, headers=headers, timeout=10)
      print(json.dumps(response.json(), indent=2))
  except Exception as e:
      print(e)

The HTTP client (`requests.get`) and the JSON codec are external
collaborators; we model the client as an oracle mapping the request it is
given to an outcome (a response, or a raised exception), and the result of
`response.json()` as part of the response (a parsed JSON value, or a raised
decode exception).  `json.dumps(·, indent=2)` is embedded concretely below,
following CPython's `json` encoder with `ensure_ascii=True` (the default)
and `sort_keys=False` (the default, so object keys keep insertion order).
`print` writes one line to standard output; it is modelled as appending the
printed string to the output list and is assumed not to raise.
-/

namespace DebugGifts

/-- The kind of a raised Python exception, as relevant to this script:
the kinds the spec names (`requests` network failures, `requests.Timeout`,
JSON decode errors), any other exception deriving from `Exception`, and
the two standard exceptions that derive only from `BaseException`
(`KeyboardInterrupt`, `SystemExit`). -/
inductive ExnKind where
  | networkFailure
  | timeout
  | jsonDecode
  | otherException
  | keyboardInterrupt
  | systemExit
deriving DecidableEq, Repr

/-- Whether an exception of this kind is an instance of Python's `Exception`
class, i.e. is caught by `except Exception`.  In CPython,
`requests.ConnectionError`, `requests.Timeout` and `json.JSONDecodeError`
all derive from `Exception`; `KeyboardInterrupt` and `SystemExit` derive
only from `BaseException` and are not caught by `except Exception`. -/
def ExnKind.derivesFromException : ExnKind → Bool
  | .keyboardInterrupt => false
  | .systemExit => false
  | _ => true

/-- A raised Python exception: its kind and its string form `str(e)`
(which is what `print(e)` writes). -/
structure Exn where
  kind : ExnKind
  msg : String
deriving DecidableEq, Repr

/-- `isinstance(e, Exception)`. -/
def Exn.derivesFromException (e : Exn) : Bool :=
  e.kind.derivesFromException

/-- A JSON value as produced by Python's `json` parser: `None`, `bool`,
a number, `str`, `list`, or `dict` whose keys keep insertion order
(Python dicts preserve insertion order).  Numbers are modelled as integers;
nothing in the script depends on float formatting. -/
inductive Json where
  | null
  | bool (b : Bool)
  | num (n : Int)
  | str (s : String)
  | arr (xs : List Json)
  | obj (kvs : List (String × Json))

/-- Lower-case hexadecimal digit, as used by CPython's `\uXXXX` escapes. -/
def hexDigit (n : Nat) : Char :=
  if n < 10 then Char.ofNat (48 + n) else Char.ofNat (87 + n)

/-- Four lower-case hexadecimal digits. -/
def hex4 (n : Nat) : String :=
  String.mk [hexDigit (n / 4096 % 16), hexDigit (n / 256 % 16),
             hexDigit (n / 16 % 16), hexDigit (n % 16)]

/-- Escape one character the way CPython's
`json.encoder.py_encode_basestring_ascii` does (`ensure_ascii=True`, the
default used by the script): the two-character escapes for `"`, `\`,
backspace, form feed, newline, carriage return and tab; `\uXXXX` (with a
surrogate pair above the BMP) for every other character below `0x20` or
above `0x7e`; all remaining ASCII characters stand for themselves. -/
def escapeChar (c : Char) : String :=
  if c = '"' then "\\\""
  else if c = '\\' then "\\\\"
  else if c.toNat = 8 then "\\b"
  else if c.toNat = 12 then "\\f"
  else if c = '\n' then "\\n"
  else if c = '\r' then "\\r"
  else if c = '\t' then "\\t"
  else if c.toNat < 32 ∨ 126 < c.toNat then
    if c.toNat ≤ 65535 then "\\u" ++ hex4 c.toNat
    else
      "\\u" ++ hex4 (55296 + (c.toNat - 65536) / 1024) ++
      "\\u" ++ hex4 (56320 + (c.toNat - 65536) % 1024)
  else String.singleton c

/-- A JSON string literal: the escaped characters between double quotes. -/
def encodeString (s : String) : String :=
  "\"" ++ String.join (s.data.map escapeChar) ++ "\""

/-- The indentation CPython's encoder puts before an item at nesting
level `lvl` when called with `indent=2`: `2 * lvl` spaces. -/
def pad (lvl : Nat) : String :=
  String.mk (List.replicate (2 * lvl) ' ')

mutual

/-- `json.dumps(j, indent=2)` rendered at nesting level `lvl`, following
CPython's `json.encoder._make_iterencode` with `indent=2` (so the item
separator is `",\n"` and the key separator `": "`): empty containers render
as `[]` and `\x7b\x7d` with no newline; non-empty containers put every item on
its own line indented one level deeper, and the closing bracket on its own
line at the current level.  `sort_keys` is left at its default `False`, so
object entries are rendered in the order the parser produced them. -/
def dumps : Json → Nat → String
  | .null, _ => "null"
  | .bool true, _ => "true"
  | .bool false, _ => "false"
  | .num n, _ => toString n
  | .str s, _ => encodeString s
  | .arr [], _ => "[]"
  | .arr (x :: xs), lvl =>
      "[\n" ++ String.intercalate ",\n" (dumpsItems (x :: xs) (lvl + 1)) ++
      "\n" ++ pad lvl ++ "]"
  | .obj [], _ => "\x7b\x7d"
  | .obj (kv :: kvs), lvl =>
      "\x7b\n" ++ String.intercalate ",\n" (dumpsEntries (kv :: kvs) (lvl + 1)) ++
      "\n" ++ pad lvl ++ "\x7d"

/-- The rendered lines of the items of a JSON array, in order. -/
def dumpsItems : List Json → Nat → List String
  | [], _ => []
  | j :: rest, lvl => (pad lvl ++ dumps j lvl) :: dumpsItems rest lvl

/-- The rendered lines of the entries of a JSON object, in order. -/
def dumpsEntries : List (String × Json) → Nat → List String
  | [], _ => []
  | (k, v) :: rest, lvl =>
      (pad lvl ++ encodeString k ++ ": " ++ dumps v lvl) :: dumpsEntries rest lvl

end

/-- The HTTP response handed back by the client, as far as the script looks
at it: the status code, and the result of calling `response.json()` — the
parsed JSON value, or the decode exception that call raises when the body
is not valid JSON.  (The script never reads the status.) -/
structure Response where
  status : Nat
  jsonOutcome : Except Exn Json

/-- The outcome of one call to `requests.get`: a response, or a raised
exception (connection failure, timeout, `KeyboardInterrupt`, ...). -/
inductive ClientOutcome where
  | resp (r : Response)
  | raise (e : Exn)

/-- A request descriptor: the arguments the script passes to
`requests.get(url, headers=headers, timeout=10)`. -/
structure Request where
  url : String
  headers : List (String × String)
  timeoutSeconds : Nat
deriving DecidableEq, Repr

/-- The one request the script builds (lines 4, 5 and 8 of the source):
the fixed URL, the single `X-Admin-Password` header with the hardcoded
credential, and the 10-second timeout. -/
def theRequest : Request :=
  ⟨"https://channelsseller.site/api/user/udbcwicnovewwobvo/nfts",
   [("X-Admin-Password", "nova_admin_2024")], 10⟩

/-- The body of the `try` block, given the client's outcome for the one
request: obtain the response (a raised exception escapes to the handler),
call `response.json()` (a raised decode exception escapes to the handler),
and serialize the parsed value with `json.dumps(·, indent=2)`; the
resulting string is what the `print` inside the `try` writes. -/
def tryBody : ClientOutcome → Except Exn String
  | .raise e => .error e
  | .resp r =>
      match r.jsonOutcome with
      | .error e => .error e
      | .ok j => .ok (dumps j 0)

/-- What one invocation of the script did: the requests it issued in order,
the lines it printed to standard output in order, and the exception that
propagated out of the script uncaught, if any (`none` means the script
terminated normally, with exit code 0). -/
structure ScriptResult where
  requests : List Request
  output : List String
  raised : Option Exn
deriving DecidableEq, Repr

/-- One invocation of the script, given the HTTP client as an oracle from
request to outcome, plus the process's command-line arguments and
environment variables (the script reads neither: it imports only `requests`
and `json`, and never touches `sys.argv` or `os.environ`).  The script
issues the single fixed request; if the `try` body completes, its string is
printed; if it raises an exception deriving from `Exception`, the
`except Exception as e` handler prints `str(e)` and the script ends
normally; an exception deriving only from `BaseException` (such as
`KeyboardInterrupt` or `SystemExit`) is not caught and propagates. -/
def run (client : Request → ClientOutcome) (_argv : List String)
    (_envVars : List (String × String)) : ScriptResult :=
  match tryBody (client theRequest) with
  | .ok s => ⟨[theRequest], [s], none⟩
  | .error e =>
      if e.derivesFromException then ⟨[theRequest], [e.msg], none⟩
      else ⟨[theRequest], [], some e⟩

/-! Sample concrete inputs used by the witness theorems below. -/

/-- A sample parsed body with two keys, to exhibit key order. -/
def sampleJson : Json :=
  .obj [("b", .num 1), ("a", .arr [.null, .bool true])]

/-- A sample response whose body parses as `sampleJson`. -/
def sampleResponse : Response := ⟨200, .ok sampleJson⟩

/-- A client that answers every request with `sampleResponse`. -/
def sampleClient : Request → ClientOutcome := fun _ => .resp sampleResponse

/-- A client whose `requests.get` raises a read timeout. -/
def timeoutClient : Request → ClientOutcome :=
  fun _ => .raise ⟨.timeout, "Read timed out. (read timeout=10)"⟩

/-- A client whose `requests.get` raises `KeyboardInterrupt` (the user
pressing Ctrl-C during the blocking call; `str(KeyboardInterrupt())` is
the empty string). -/
def interruptClient : Request → ClientOutcome :=
  fun _ => .raise ⟨.keyboardInterrupt, ""⟩

/-- A client whose `requests.get` raises `SystemExit`. -/
def exitClient : Request → ClientOutcome := fun _ => .raise ⟨.systemExit, "0"⟩

/-- A client whose `requests.get` raises a generic `Exception` instance. -/
def genericRaiseClient : Request → ClientOutcome :=
  fun _ => .raise ⟨.otherException, "boom"⟩

/-- A client returning a response whose body is not valid JSON, so that
`response.json()` raises a decode error with the standard CPython
`JSONDecodeError` message. -/
def nonJsonClient : Request → ClientOutcome :=
  fun _ => .resp ⟨200, .error ⟨.jsonDecode, "Expecting value: line 1 column 1 (char 0)"⟩⟩

/-- A client returning a response for which the work inside the `try`
block after the `get` raises some `Exception` instance that is not a
decode error. -/
def inTryRaiseClient : Request → ClientOutcome :=
  fun _ => .resp ⟨200, .error ⟨.otherException, "Circular reference detected"⟩⟩

/-- A client that behaves like `sampleClient` on the request the script
makes but differently elsewhere; used to witness that only the value at
`theRequest` matters. -/
def twinClient : Request → ClientOutcome :=
  fun q => if q.timeoutSeconds = 10 then .resp sampleResponse
           else .raise ⟨.otherException, "other"⟩

/-- Claim C1: whenever the client returns a response whose body parses as
the JSON value `j`, the script prints exactly `json.dumps(j, indent=2)` —
two-space indentation, object keys in parsed order — to standard output,
and terminates normally. -/
theorem json_response_pretty_printed (client : Request → ClientOutcome)
    (argv : List String) (envv : List (String × String))
    (r : Response) (j : Json)
    (hc : client theRequest = .resp r) (hj : r.jsonOutcome = .ok j) :
    (run client argv envv).output = [dumps j 0] ∧
    (run client argv envv).raised = none := by
  simp [run, tryBody, hc, hj]

/-- Witness for C1 at a concrete two-key object, with the printed string
spelled out. -/
theorem json_response_pretty_printed_witness :
    sampleClient theRequest = .resp sampleResponse ∧
    sampleResponse.jsonOutcome = .ok sampleJson ∧
    ((run sampleClient [] []).output = [dumps sampleJson 0] ∧
     (run sampleClient [] []).raised = none) ∧
    dumps sampleJson 0 = "\x7b\n  \"b\": 1,\n  \"a\": [\n    null,\n    true\n  ]\n\x7d" :=
  ⟨rfl, rfl,
   json_response_pretty_printed sampleClient [] [] sampleResponse sampleJson rfl rfl,
   by rfl⟩

/-- Claim C2: every error of the kinds the spec lists — a network failure
or timeout raised by the request, or a decode error from JSON handling —
is printed as its string form `str(e)` on standard output, and the script
raises nothing further and terminates normally. -/
theorem listed_errors_printed_and_normal_exit (client : Request → ClientOutcome)
    (argv : List String) (envv : List (String × String)) (e : Exn)
    (harise : client theRequest = .raise e ∨
      ∃ r, client theRequest = .resp r ∧ r.jsonOutcome = .error e)
    (hkind : e.kind = .networkFailure ∨ e.kind = .timeout ∨ e.kind = .jsonDecode) :
    (run client argv envv).output = [e.msg] ∧
    (run client argv envv).raised = none := by
  have hexc : e.derivesFromException = true := by
    rcases hkind with h | h | h <;>
      simp [Exn.derivesFromException, ExnKind.derivesFromException, h]
  rcases harise with h | ⟨r, hr, hj⟩
  · simp [run, tryBody, h, hexc]
  · simp [run, tryBody, hr, hj, hexc]

/-- Witness for C2 at a concrete raised timeout. -/
theorem listed_errors_printed_and_normal_exit_witness :
    (timeoutClient theRequest = .raise ⟨.timeout, "Read timed out. (read timeout=10)"⟩ ∨
      ∃ r, timeoutClient theRequest = .resp r ∧
        r.jsonOutcome = .error ⟨.timeout, "Read timed out. (read timeout=10)"⟩) ∧
    ((run timeoutClient [] []).output = ["Read timed out. (read timeout=10)"] ∧
     (run timeoutClient [] []).raised = none) :=
  ⟨Or.inl rfl,
   listed_errors_printed_and_normal_exit timeoutClient [] []
     ⟨.timeout, "Read timed out. (read timeout=10)"⟩ (Or.inl rfl)
     (Or.inr (Or.inl rfl))⟩

/-- Counterexample to claim C3 as stated: `except Exception` is not a
handler for every exception of any kind.  When the blocking `requests.get`
raises `KeyboardInterrupt` — which derives from `BaseException` but not
from `Exception` — the exception is not caught and nothing is printed:
it propagates out of the script. -/
theorem catch_all_misses_keyboard_interrupt :
    (run interruptClient [] []).raised = some ⟨.keyboardInterrupt, ""⟩ ∧
    (run interruptClient [] []).output = [] :=
  ⟨rfl, rfl⟩

/-- Claim C3, amended: every exception arising in the `try` block that
derives from `Exception` is caught by the single catch-all handler and
printed as its text, with no differentiation between kinds; an exception
deriving only from `BaseException` (`KeyboardInterrupt`, `SystemExit`) is
not caught and propagates unprinted. -/
theorem exception_instances_caught_others_propagate
    (client : Request → ClientOutcome) (argv : List String)
    (envv : List (String × String)) (e : Exn)
    (h : tryBody (client theRequest) = .error e) :
    (e.derivesFromException = true →
      run client argv envv = ⟨[theRequest], [e.msg], none⟩) ∧
    (e.derivesFromException = false →
      run client argv envv = ⟨[theRequest], [], some e⟩) := by
  constructor <;> intro hb <;> simp [run, h, hb]

/-- Witness for the amended C3 at a concrete generic `Exception`. -/
theorem exception_instances_caught_others_propagate_witness :
    tryBody (genericRaiseClient theRequest) = .error ⟨.otherException, "boom"⟩ ∧
    (((⟨.otherException, "boom"⟩ : Exn).derivesFromException = true →
       run genericRaiseClient [] [] = ⟨[theRequest], ["boom"], none⟩) ∧
     ((⟨.otherException, "boom"⟩ : Exn).derivesFromException = false →
       run genericRaiseClient [] [] = ⟨[theRequest], [], some ⟨.otherException, "boom"⟩⟩)) :=
  ⟨rfl, exception_instances_caught_others_propagate genericRaiseClient [] []
    ⟨.otherException, "boom"⟩ rfl⟩

/-- The script issues exactly the one fixed request, whatever the client,
arguments, and environment. -/
theorem run_requests_eq (client : Request → ClientOutcome)
    (argv : List String) (envv : List (String × String)) :
    (run client argv envv).requests = [theRequest] := by
  unfold run
  split
  · rfl
  · split <;> rfl

/-- Claim C4: every invocation issues its GET with exactly the fixed URL,
exactly the one `X-Admin-Password` header carrying the hardcoded
credential, and a 10-second timeout; nothing about the request varies
with the client, the arguments, or the environment. -/
theorem fixed_request_parameters (client : Request → ClientOutcome)
    (argv : List String) (envv : List (String × String)) :
    (run client argv envv).requests = [theRequest] ∧
    theRequest.url = "https://channelsseller.site/api/user/udbcwicnovewwobvo/nfts" ∧
    theRequest.headers = [("X-Admin-Password", "nova_admin_2024")] ∧
    theRequest.timeoutSeconds = 10 :=
  ⟨run_requests_eq client argv envv, rfl, rfl, rfl⟩

/-- Claim C5: if the client returns a response whose body is not valid
JSON, so that `response.json()` raises a decode error, the script prints
that error's message and terminates normally. -/
theorem non_json_body_error_printed (client : Request → ClientOutcome)
    (argv : List String) (envv : List (String × String))
    (r : Response) (e : Exn)
    (hc : client theRequest = .resp r) (hj : r.jsonOutcome = .error e)
    (hk : e.kind = .jsonDecode) :
    (run client argv envv).output = [e.msg] ∧
    (run client argv envv).raised = none := by
  have hexc : e.derivesFromException = true := by
    simp [Exn.derivesFromException, ExnKind.derivesFromException, hk]
  simp [run, tryBody, hc, hj, hexc]

/-- Witness for C5 at a concrete non-JSON body. -/
theorem non_json_body_error_printed_witness :
    nonJsonClient theRequest =
      .resp ⟨200, .error ⟨.jsonDecode, "Expecting value: line 1 column 1 (char 0)"⟩⟩ ∧
    ((run nonJsonClient [] []).output = ["Expecting value: line 1 column 1 (char 0)"] ∧
     (run nonJsonClient [] []).raised = none) :=
  ⟨rfl, non_json_body_error_printed nonJsonClient [] []
    ⟨200, .error ⟨.jsonDecode, "Expecting value: line 1 column 1 (char 0)"⟩⟩
    ⟨.jsonDecode, "Expecting value: line 1 column 1 (char 0)"⟩ rfl rfl rfl⟩

/-- Claim C6: for every client outcome the program makes exactly one HTTP
call and then terminates — no retry, no second request. -/
theorem exactly_one_http_call (client : Request → ClientOutcome)
    (argv : List String) (envv : List (String × String)) :
    (run client argv envv).requests.length = 1 := by
  rw [run_requests_eq]
  rfl

/-- Claim C7: the script's behaviour is a function of the client's answer
to the one request alone — two runs whose clients agree there produce
identical results, whatever the command-line arguments and environment
variables of either run. -/
theorem output_function_of_client_result
    (c₁ c₂ : Request → ClientOutcome) (a₁ a₂ : List String)
    (v₁ v₂ : List (String × String))
    (h : c₁ theRequest = c₂ theRequest) :
    run c₁ a₁ v₁ = run c₂ a₂ v₂ := by
  unfold run
  rw [h]

/-- Witness for C7: two clients that differ away from `theRequest`, run
with different arguments and environments, produce the same result. -/
theorem output_function_of_client_result_witness :
    sampleClient theRequest = twinClient theRequest ∧
    run sampleClient ["--flag"] [("HOME", "/root")] = run twinClient [] [] :=
  ⟨rfl, output_function_of_client_result sampleClient twinClient
    ["--flag"] [] [("HOME", "/root")] [] rfl⟩

/-- Claim C8: the response's status code is ignored.  Overwriting the
status of whatever response the client returns changes nothing about the
run, and a body that parses as `j` is pretty-printed the same way at every
status — there is no status check and no raise-for-status. -/
theorem status_code_ignored :
    (∀ (client : Request → ClientOutcome) (argv : List String)
       (envv : List (String × String)) (s : Nat),
       run (fun q => match client q with
             | .resp r => .resp ⟨s, r.jsonOutcome⟩
             | .raise e => .raise e) argv envv
         = run client argv envv) ∧
    (∀ (s : Nat) (j : Json) (argv : List String)
       (envv : List (String × String)),
       (run (fun _ => .resp ⟨s, .ok j⟩) argv envv).output = [dumps j 0]) := by
  constructor
  · intro client argv envv s
    unfold run
    rcases h : client theRequest with r | e <;> simp [tryBody, h]
  · intro s j argv envv
    simp [run, tryBody]

/-- Counterexample to claim C9 as stated: it is not true that every client
outcome leads to exactly one printed item.  When the client raises
`SystemExit`, the handler does not catch it, nothing at all is printed,
and the exception propagates. -/
theorem one_output_item_violated_by_system_exit :
    (run exitClient [] []).output.length = 0 ∧
    (run exitClient [] []).raised = some ⟨.systemExit, "0"⟩ :=
  ⟨rfl, rfl⟩

/-- Claim C9, amended: every invocation prints exactly one item — the
pretty-printed JSON or the error text, never both — and terminates
normally, except when the exception that arises derives only from
`BaseException`, in which case nothing is printed and it propagates. -/
theorem one_output_item_unless_base_exception
    (client : Request → ClientOutcome) (argv : List String)
    (envv : List (String × String)) :
    ((run client argv envv).output.length = 1 ∧
     (run client argv envv).raised = none) ∨
    ((run client argv envv).output = [] ∧
     ∃ e, (run client argv envv).raised = some e ∧
       e.derivesFromException = false) := by
  unfold run
  rcases h : tryBody (client theRequest) with e | s
  · by_cases hb : e.derivesFromException = true
    · exact Or.inl (by simp [hb])
    · exact Or.inr ⟨by simp [hb], e, by simp [hb], by simpa using hb⟩
  · exact Or.inl ⟨rfl, rfl⟩

/-- Claim C10: the `try` block encloses the JSON parsing and the
re-serialization as well as the network call, so any `Exception` instance
arising anywhere in the body — while requesting, parsing, serializing, or
printing the parsed value — reaches the same catch-all handler, is
printed, and does not propagate. -/
theorem try_block_errors_caught (client : Request → ClientOutcome)
    (argv : List String) (envv : List (String × String)) (e : Exn)
    (h : tryBody (client theRequest) = .error e)
    (hexc : e.derivesFromException = true) :
    (run client argv envv).output = [e.msg] ∧
    (run client argv envv).raised = none := by
  simp [run, h, hexc]

/-- Witness for C10 at a concrete in-body error that is not a decode
error. -/
theorem try_block_errors_caught_witness :
    tryBody (inTryRaiseClient theRequest) =
      .error ⟨.otherException, "Circular reference detected"⟩ ∧
    (⟨.otherException, "Circular reference detected"⟩ : Exn).derivesFromException = true ∧
    ((run inTryRaiseClient [] []).output = ["Circular reference detected"] ∧
     (run inTryRaiseClient [] []).raised = none) :=
  ⟨rfl, rfl, try_block_errors_caught inTryRaiseClient [] []
    ⟨.otherException, "Circular reference detected"⟩ rfl rfl⟩

end DebugGifts
